import Mathlib

set_option maxRecDepth 16384

/-!
Shallow embedding of the che-theia repository:

* `ChePorts` embeds `plugins/ports-plugin/src/ports-plugin.ts` — the
  open-port policy (`onOpenPort`), the redirect negotiation (`askRedirect`)
  and the startup partition of workspace ports (`start`).  The effectful
  Theia API calls (`showErrorMessage`, `showInformationMessage`,
  `PortRedirectListener.start`, `executeCommand`, `console.info`) are
  reified as an `Effect` trace; user answers to the prompts are supplied
  up-front in a `UserResponses` record; the mutable module-level
  `redirectPorts` array is threaded as explicit state.

* `CheCredentials` embeds the `CheCredentialsService` class — a CRUD
  adapter over Kubernetes secrets of the current workspace namespace.  The
  remote secret list is threaded as explicit state and the
  `onDidChangePassword` emitter is reified as a list of fired events.
-/

namespace ChePorts

/-- JavaScript `String.prototype.startsWith`, modelled on the character
list underlying the string. -/
def jsStartsWith (s pat : String) : Bool :=
  pat.data.isPrefixOf s.data

/-- JavaScript `parseInt(s, 10)`: skip leading whitespace, read an optional
sign, then the longest run of decimal digits; `none` models `NaN` (no
digits found). -/
def jsParseInt10 (s : String) : Option Int :=
  let cs := s.data.dropWhile (fun c => c.isWhitespace)
  let signed : Bool × List Char :=
    match cs with
    | '-' :: r => (true, r)
    | '+' :: r => (false, r)
    | r => (false, r)
  let ds := signed.2.takeWhile (fun c => c.isDigit)
  if ds.isEmpty then none
  else
    let v : Int := Int.ofNat (ds.foldl (fun acc c => acc * 10 + (c.toNat - 48)) 0)
    some (if signed.1 then -v else v)

/-- An observed OS-level listening endpoint (the plugin's `Port` interface:
numeric `portNumber`, string `interfaceListen`). -/
structure Port where
  portNumber : Nat
  interfaceListen : String
deriving DecidableEq

/-- A declared workspace server (the plugin's `WorkspacePort` interface:
string-typed `portNumber`, `serverName`, external `url`). -/
structure WorkspacePort where
  portNumber : String
  serverName : String
  url : String
deriving DecidableEq

def LISTEN_ALL_IPV4 : String := "0.0.0.0"

def LISTEN_ALL_IPV6 : String := "::"

def SERVER_REDIRECT_PATTERN : String := "theia-redirect-"

/-- One reified side effect of the plugin code, in program order.
`showInformationMessage` records the message, the `modal` flag and the
titles of the offered `MessageItem`s; `startListener` records the
constructor arguments of `new PortRedirectListener(listenPort, host,
targetPort)` (the listen port comes from `parseInt`, hence `Option Int`). -/
inductive Effect where
  | showErrorMessage (message : String) (modal : Bool)
  | showInformationMessage (message : String) (modal : Bool) (items : List String)
  | startListener (listenPort : Option Int) (host : String) (targetPort : Nat)
  | executeCommand (command : String) (arg : String)
  | consoleInfo (message : String)
deriving DecidableEq

/-- The user's answers to the (at most two) prompts a single
`onOpenPort`/`askRedirect` run can show: `first` is the title selected at
the first `showInformationMessage` prompt, `second` at the second;
`none` models dismissing the prompt (`undefined`). -/
structure UserResponses where
  first : Option String
  second : Option String
deriving DecidableEq

/-- The `desc` template literal of the internal-interface branch of
`onOpenPort` (line breaks and indentation exactly as in the source). -/
def internalRedirectMsg (port : Port) : String :=
  "A new process is now listening on port " ++ (toString port.portNumber ++
    (" but is listening on interface " ++ (port.interfaceListen ++
      " which is internal.\n        You should change to be remotely available. Would you want to add a redirect for this port so it becomes available ?")))

/-- The `err` template literal of the internal-interface branch of
`onOpenPort`. -/
def internalErrorMsg (port : Port) : String :=
  "A new process is now listening on port " ++ (toString port.portNumber ++
    (" but is listening on interface " ++ (port.interfaceListen ++
      " which is internal.\n        This port is not available outside. You should change the code to listen on 0.0.0.0 for example.")))

/-- The `desc` template literal of the undeclared-port branch of
`onOpenPort`. -/
def undeclaredRedirectMsg (port : Port) : String :=
  "A new process is now listening on port " ++ (toString port.portNumber ++
    " but this port is not exposed in the workspace as a server.\n         Would you want to add a redirect for this port so it becomes available ?")

/-- The `err` template literal of the undeclared-port branch of
`onOpenPort`. -/
def undeclaredErrorMsg (port : Port) : String :=
  "A new process is now listening on port " ++ (toString port.portNumber ++
    " but this port is not exposed in the workspace as a server.\n         You should add a new server with this port in order to access it")

/-- The `msg` template literal shown after a redirect was set up inside
`askRedirect`. -/
def redirectEnabledMsg (port : Port) (workspacePort : WorkspacePort) : String :=
  "Redirect is now enabled on port " ++ (toString port.portNumber ++
    (". External URL is " ++ workspacePort.url))

/-- The `msg` template literal of the matched-declared-port branch of
`onOpenPort` (the direct "Open Link" prompt). -/
def openLinkMsg (matchingWorkspacePort : WorkspacePort) : String :=
  "A process is now listening on port " ++ (matchingWorkspacePort.portNumber ++
    (". External URL is " ++ matchingWorkspacePort.url))

/-- The `console.info` trace written at the end of `onOpenPort`. -/
def nowListeningMsg (port : Port) : String :=
  "The port " ++ (toString port.portNumber ++
    (" is now listening on interface " ++ port.interfaceListen))

/-- `askRedirect(port, redirectMessage, errorMessage)`.  State in/out: the
module-level `redirectPorts` array.  An empty pool shows the caller's
`errorMessage` (modal) and returns.  Otherwise the confirmation prompt is
shown with the single item `yes`; on confirmation `redirectPorts.pop()`
removes the LAST array element, a `PortRedirectListener` is started on
that entry's (parsed) port towards `localhost:<port.portNumber>`, and the
follow-up prompt offers `Open Link`, which runs the
`mini-browser.openUrl` command on the entry's URL.  The `getLast? = none`
branch is unreachable under the earlier emptiness check (the source
asserts it with `pop()!`). -/
def askRedirect (resp : UserResponses) (redirectPorts : List WorkspacePort)
    (port : Port) (redirectMessage errorMessage : String) :
    List Effect × List WorkspacePort :=
  if redirectPorts.length = 0 then
    ([Effect.showErrorMessage errorMessage true], redirectPorts)
  else
    let firstPrompt := Effect.showInformationMessage redirectMessage true ["yes"]
    if resp.first = some "yes" then
      match redirectPorts.getLast? with
      | none => ([firstPrompt], redirectPorts)
      | some workspacePort =>
          let listen := Effect.startListener (jsParseInt10 workspacePort.portNumber)
            "localhost" port.portNumber
          let secondPrompt := Effect.showInformationMessage
            (redirectEnabledMsg port workspacePort) true ["Open Link"]
          let openCmd := if resp.second = some "Open Link" then
              [Effect.executeCommand "mini-browser.openUrl" workspacePort.url]
            else []
          (firstPrompt :: listen :: secondPrompt :: openCmd, redirectPorts.dropLast)
    else
      ([firstPrompt], redirectPorts)

/-- `onOpenPort(port)`.  State in/out: the `redirectPorts` pool
(`workspacePorts` is only read).  A non-wildcard bind interface goes to
`askRedirect` and RETURNS (skipping the final `console.info`); a matched
reserved-prefix server RETURNS silently; a matched plain server shows the
modal "Open Link" prompt; an unmatched port goes to `askRedirect`; the
two non-returning paths end with the `console.info` trace. -/
def onOpenPort (resp : UserResponses) (workspacePorts redirectPorts : List WorkspacePort)
    (port : Port) : List Effect × List WorkspacePort :=
  if port.interfaceListen ≠ LISTEN_ALL_IPV4 ∧ port.interfaceListen ≠ LISTEN_ALL_IPV6 then
    askRedirect resp redirectPorts port (internalRedirectMsg port) (internalErrorMsg port)
  else
    match workspacePorts.find?
        (fun workspacePort => workspacePort.portNumber == toString port.portNumber) with
    | some matchingWorkspacePort =>
        if jsStartsWith matchingWorkspacePort.serverName SERVER_REDIRECT_PATTERN then
          ([], redirectPorts)
        else
          let openCmd := if resp.first = some "Open Link" then
              [Effect.executeCommand "mini-browser.openUrl" matchingWorkspacePort.url]
            else []
          (Effect.showInformationMessage (openLinkMsg matchingWorkspacePort) true ["Open Link"] ::
            (openCmd ++ [Effect.consoleInfo (nowListeningMsg port)]), redirectPorts)
    | none =>
        let r := askRedirect resp redirectPorts port
          (undeclaredRedirectMsg port) (undeclaredErrorMsg port)
        (r.1 ++ [Effect.consoleInfo (nowListeningMsg port)], r.2)

/-- The assignment `redirectPorts = workspacePorts.filter(...)` performed
once in `start`. -/
def startRedirectPorts (workspacePorts : List WorkspacePort) : List WorkspacePort :=
  workspacePorts.filter (fun port => jsStartsWith port.serverName SERVER_REDIRECT_PATTERN)

end ChePorts

namespace CheCredentials

/-- A Kubernetes secret as the adapter observes it: `name` models
`metadata?.name` (a secret whose `metadata` is absent behaves identically
to one whose `metadata.name` is absent, so the two levels of optionality
are collapsed); `password` models `data.password`, whose presence the
source asserts with `data!`. -/
structure K8sSecret where
  name : Option String
  password : String
deriving DecidableEq

/-- The payload of the `onDidChangePassword` emitter
(`CredentialsChangeEvent`). -/
structure CredentialsChangeEvent where
  service : String
  account : String
deriving DecidableEq

/-- One entry of the `findCredentials` result. -/
structure Credential where
  account : String
  password : String
deriving DecidableEq

/-- The filter/find predicate used by `findCredentials`, `findPassword`
and `getPassword`: `secret.metadata && secret.metadata.name &&
secret.metadata.name.startsWith(service)`. -/
def secretMatches (service : String) (s : K8sSecret) : Bool :=
  match s.name with
  | some n => ChePorts.jsStartsWith n service
  | none => false

/-- JavaScript `s.substring(start)` for `start ≥ 0` (clamps past the end
to the empty string). -/
def jsSubstringFrom (s : String) (start : Nat) : String :=
  String.mk (s.data.drop start)

/-- The secret name used by `setPassword`/`deletePassword`:
`` `${service}_${account}` ``. -/
def secretName (service account : String) : String :=
  service ++ "_" ++ account

/-- `findCredentials(service)` over the listed secrets of the workspace
namespace: keep the secrets whose name starts with `service`, recover the
account as `name.substring(service.length + 1)` and pair it with the
secret's password. -/
def findCredentials (secrets : List K8sSecret) (service : String) : List Credential :=
  (secrets.filter (secretMatches service)).map
    (fun s => { account := jsSubstringFrom (s.name.getD "") (service.length + 1),
                password := s.password })

/-- `findPassword(service)`: password of the first listed secret whose
name starts with `service`; `none` models the implicit `undefined`. -/
def findPassword (secrets : List K8sSecret) (service : String) : Option String :=
  match secrets.find? (secretMatches service) with
  | some item => some item.password
  | none => none

/-- `getPassword(service, account)`: the body is a verbatim duplicate of
`findPassword` — the `account` parameter is never read. -/
def getPassword (secrets : List K8sSecret) (service : String) (account : String) :
    Option String :=
  match secrets.find? (secretMatches service) with
  | some item => some item.password
  | none => none

/-- `setPassword(service, account, password)`: create a secret named
`` `${service}_${account}` `` with `data = { password }` in the workspace
namespace, then fire `onDidChangePassword` with `{ service, account }`.
Returns the updated secret list and the fired events. -/
def setPassword (secrets : List K8sSecret) (service account password : String) :
    List K8sSecret × List CredentialsChangeEvent :=
  (secrets ++ [{ name := some (secretName service account), password := password }],
   [{ service := service, account := account }])

/-- `deletePassword(service, account)`: `deleteNamespacedSecret` succeeds
exactly when a secret of that name exists (a missing secret makes the API
call reject, landing in the `catch` that logs and returns `false` without
firing); on success the secret is removed, the event fires and `true` is
returned — both the fire and the `return true` sit inside the `try`.
Returns (updated secrets, returned boolean, fired events). -/
def deletePassword (secrets : List K8sSecret) (service account : String) :
    List K8sSecret × Bool × List CredentialsChangeEvent :=
  if secrets.any (fun s => s.name == some (secretName service account)) then
    (secrets.filter (fun s => !(s.name == some (secretName service account))), true,
     [{ service := service, account := account }])
  else
    (secrets, false, [])

end CheCredentials

namespace ChePorts

/-- The head character of a string survives appending a tail. -/
theorem string_head_append (a s : String) (c : Char) (h : a.data.head? = some c) :
    (a ++ s).data.head? = some c := by
  rw [String.data_append]
  cases hd : a.data with
  | nil => simp [hd] at h
  | cons x xs =>
      rw [hd] at h
      simp at h
      simp [hd, h]

/-- Strings whose head characters differ are different strings. -/
theorem string_ne_of_head_ne (s t : String) (c d : Char)
    (hs : s.data.head? = some c) (ht : t.data.head? = some d) (hcd : c ≠ d) : s ≠ t := by
  intro e
  subst e
  rw [hs] at ht
  exact hcd (Option.some.inj ht)

/-- The direct "Open Link" message (head `'A'`) is never the
redirect-enabled message (head `'R'`). -/
theorem openLinkMsg_ne_redirectEnabledMsg (wp : WorkspacePort) (port : Port)
    (wp' : WorkspacePort) : openLinkMsg wp ≠ redirectEnabledMsg port wp' :=
  string_ne_of_head_ne _ _ 'A' 'R'
    (string_head_append _ _ _ rfl) (string_head_append _ _ _ rfl) (by decide)

/-- No run of `askRedirect` ever shows the direct "Open Link" prompt of the
matched-declared-port branch: its first prompt offers `yes`, and its
second prompt carries the redirect-enabled message. -/
theorem showOpenLink_not_mem_askRedirect (resp : UserResponses)
    (redirectPorts : List WorkspacePort) (port : Port) (rm em : String)
    (wp : WorkspacePort) :
    Effect.showInformationMessage (openLinkMsg wp) true ["Open Link"] ∉
      (askRedirect resp redirectPorts port rm em).1 := by
  unfold askRedirect
  split
  · simp
  · split
    · split
      · simp
      · simp [openLinkMsg_ne_redirectEnabledMsg]
    · simp

/-- No run of `askRedirect` writes a `console.info` trace. -/
theorem consoleInfo_not_mem_askRedirect (resp : UserResponses)
    (redirectPorts : List WorkspacePort) (port : Port) (rm em m : String) :
    Effect.consoleInfo m ∉ (askRedirect resp redirectPorts port rm em).1 := by
  unfold askRedirect
  split
  · simp
  · split
    · split
      · simp
      · split <;> simp
    · simp

/-- `askRedirect` never grows the redirect pool. -/
theorem askRedirect_pool_le (resp : UserResponses) (redirectPorts : List WorkspacePort)
    (port : Port) (rm em : String) :
    ((askRedirect resp redirectPorts port rm em).2).length ≤ redirectPorts.length := by
  unfold askRedirect
  split
  · simp
  · split
    · split
      · simp
      · simp [List.length_dropLast]
    · simp

/-- `onOpenPort` never grows the redirect pool. -/
theorem onOpenPort_pool_le (resp : UserResponses)
    (workspacePorts redirectPorts : List WorkspacePort) (port : Port) :
    ((onOpenPort resp workspacePorts redirectPorts port).2).length ≤
      redirectPorts.length := by
  unfold onOpenPort
  split
  · exact askRedirect_pool_le _ _ _ _ _
  · split
    · split
      · simp
      · simp
    · simpa using askRedirect_pool_le resp redirectPorts port
        (undeclaredRedirectMsg port) (undeclaredErrorMsg port)

end ChePorts
namespace ChePorts

/-- C1: for every observed opened port whose bind interface is neither
`0.0.0.0` nor `::`, `onOpenPort` runs exactly the `askRedirect` flow (with
the internal-interface messages) and never shows the direct "Open Link"
prompt, whatever the declared workspace ports are. -/
theorem c1_internal_bind_always_redirect (resp : UserResponses)
    (workspacePorts redirectPorts : List WorkspacePort) (port : Port)
    (h : port.interfaceListen ≠ LISTEN_ALL_IPV4 ∧ port.interfaceListen ≠ LISTEN_ALL_IPV6) :
    onOpenPort resp workspacePorts redirectPorts port =
      askRedirect resp redirectPorts port (internalRedirectMsg port) (internalErrorMsg port) ∧
    ∀ wp : WorkspacePort,
      Effect.showInformationMessage (openLinkMsg wp) true ["Open Link"] ∉
        (onOpenPort resp workspacePorts redirectPorts port).1 := by
  have heq : onOpenPort resp workspacePorts redirectPorts port =
      askRedirect resp redirectPorts port (internalRedirectMsg port) (internalErrorMsg port) := by
    unfold onOpenPort
    rw [if_pos h]
  refine ⟨heq, fun wp => ?_⟩
  rw [heq]
  exact showOpenLink_not_mem_askRedirect _ _ _ _ _ _

/-- Witness for C1 at port 4000 bound to `127.0.0.1` with a one-entry pool. -/
theorem c1_internal_bind_always_redirect_witness :
    ((Port.mk 4000 "127.0.0.1").interfaceListen ≠ LISTEN_ALL_IPV4 ∧
      (Port.mk 4000 "127.0.0.1").interfaceListen ≠ LISTEN_ALL_IPV6) ∧
    (onOpenPort ⟨none, none⟩ [] [⟨"9000", "theia-redirect-1", "https://x/9000"⟩]
        (Port.mk 4000 "127.0.0.1") =
      askRedirect ⟨none, none⟩ [⟨"9000", "theia-redirect-1", "https://x/9000"⟩]
        (Port.mk 4000 "127.0.0.1") (internalRedirectMsg (Port.mk 4000 "127.0.0.1"))
        (internalErrorMsg (Port.mk 4000 "127.0.0.1")) ∧
      ∀ wp : WorkspacePort,
        Effect.showInformationMessage (openLinkMsg wp) true ["Open Link"] ∉
          (onOpenPort ⟨none, none⟩ [] [⟨"9000", "theia-redirect-1", "https://x/9000"⟩]
            (Port.mk 4000 "127.0.0.1")).1) :=
  ⟨by decide, c1_internal_bind_always_redirect _ _ _ _ (by decide)⟩

/-- C2: with an empty redirect pool, `askRedirect` shows exactly the
caller-supplied error message (modally) and nothing else — no
confirmation prompt, no listener, and the pool stays empty. -/
theorem c2_empty_pool_error_only (resp : UserResponses) (port : Port)
    (redirectMessage errorMessage : String) :
    askRedirect resp [] port redirectMessage errorMessage =
      ([Effect.showErrorMessage errorMessage true], []) := rfl

/-- C3: with a non-empty pool, confirming pops exactly the last pool entry
(never returned) and starts one listener on that entry's parsed port
towards `localhost:<opened port>`; declining leaves the pool unchanged;
and no `askRedirect`/`onOpenPort` run ever grows the pool. -/
theorem c3_pool_pop_on_confirm (resp : UserResponses)
    (redirectPorts : List WorkspacePort) (port : Port)
    (redirectMessage errorMessage : String) (h : redirectPorts ≠ []) :
    (resp.first = some "yes" →
      ∃ workspacePort : WorkspacePort,
        redirectPorts.getLast? = some workspacePort ∧
        askRedirect resp redirectPorts port redirectMessage errorMessage =
          (Effect.showInformationMessage redirectMessage true ["yes"] ::
            Effect.startListener (jsParseInt10 workspacePort.portNumber)
              "localhost" port.portNumber ::
            Effect.showInformationMessage (redirectEnabledMsg port workspacePort)
              true ["Open Link"] ::
            (if resp.second = some "Open Link" then
                [Effect.executeCommand "mini-browser.openUrl" workspacePort.url]
              else []),
            redirectPorts.dropLast) ∧
        (askRedirect resp redirectPorts port redirectMessage errorMessage).2.length + 1 =
          redirectPorts.length) ∧
    (resp.first ≠ some "yes" →
      askRedirect resp redirectPorts port redirectMessage errorMessage =
        ([Effect.showInformationMessage redirectMessage true ["yes"]], redirectPorts)) ∧
    (∀ (r : UserResponses) (pool : List WorkspacePort) (rm em : String),
      ((askRedirect r pool port rm em).2).length ≤ pool.length) ∧
    (∀ (r : UserResponses) (ws pool : List WorkspacePort),
      ((onOpenPort r ws pool port).2).length ≤ pool.length) := by
  have hlen : ¬ redirectPorts.length = 0 := by
    simpa [List.length_eq_zero] using h
  have hpos : 0 < redirectPorts.length := Nat.pos_of_ne_zero hlen
  refine ⟨?_, ?_, ?_, ?_⟩
  · intro hyes
    refine ⟨redirectPorts.getLast h, List.getLast?_eq_getLast _ h, ?_, ?_⟩
    · unfold askRedirect
      rw [if_neg hlen, if_pos hyes, List.getLast?_eq_getLast _ h]
    · unfold askRedirect
      rw [if_neg hlen, if_pos hyes, List.getLast?_eq_getLast _ h]
      simp [List.length_dropLast]
      omega
  · intro hno
    unfold askRedirect
    rw [if_neg hlen, if_neg hno]
  · exact fun r pool rm em => askRedirect_pool_le r pool port rm em
  · exact fun r ws pool => onOpenPort_pool_le r ws pool port

/-- Witness for C3: pool `[theia-redirect-1 on 9000]`, opened port 5000,
user confirms. -/
theorem c3_pool_pop_on_confirm_witness :
    ([(⟨"9000", "theia-redirect-1", "https://x/9000"⟩ : WorkspacePort)] ≠ []) ∧
    (((⟨some "yes", none⟩ : UserResponses).first = some "yes" →
      ∃ workspacePort : WorkspacePort,
        [(⟨"9000", "theia-redirect-1", "https://x/9000"⟩ : WorkspacePort)].getLast? =
          some workspacePort ∧
        askRedirect ⟨some "yes", none⟩ [⟨"9000", "theia-redirect-1", "https://x/9000"⟩]
            (Port.mk 5000 "0.0.0.0") "rm" "em" =
          (Effect.showInformationMessage "rm" true ["yes"] ::
            Effect.startListener (jsParseInt10 workspacePort.portNumber)
              "localhost" (Port.mk 5000 "0.0.0.0").portNumber ::
            Effect.showInformationMessage
              (redirectEnabledMsg (Port.mk 5000 "0.0.0.0") workspacePort)
              true ["Open Link"] ::
            (if (⟨some "yes", none⟩ : UserResponses).second = some "Open Link" then
                [Effect.executeCommand "mini-browser.openUrl" workspacePort.url]
              else []),
            [(⟨"9000", "theia-redirect-1", "https://x/9000"⟩ : WorkspacePort)].dropLast) ∧
        (askRedirect ⟨some "yes", none⟩ [⟨"9000", "theia-redirect-1", "https://x/9000"⟩]
            (Port.mk 5000 "0.0.0.0") "rm" "em").2.length + 1 =
          [(⟨"9000", "theia-redirect-1", "https://x/9000"⟩ : WorkspacePort)].length) ∧
    ((⟨some "yes", none⟩ : UserResponses).first ≠ some "yes" →
      askRedirect ⟨some "yes", none⟩ [⟨"9000", "theia-redirect-1", "https://x/9000"⟩]
          (Port.mk 5000 "0.0.0.0") "rm" "em" =
        ([Effect.showInformationMessage "rm" true ["yes"]],
          [⟨"9000", "theia-redirect-1", "https://x/9000"⟩])) ∧
    (∀ (r : UserResponses) (pool : List WorkspacePort) (rm em : String),
      ((askRedirect r pool (Port.mk 5000 "0.0.0.0") rm em).2).length ≤ pool.length) ∧
    (∀ (r : UserResponses) (ws pool : List WorkspacePort),
      ((onOpenPort r ws pool (Port.mk 5000 "0.0.0.0")).2).length ≤ pool.length)) :=
  ⟨by decide, c3_pool_pop_on_confirm _ _ _ _ _ (by decide)⟩

end ChePorts
namespace ChePorts

/-- C4: a wildcard-bound opened port matching a declared server whose name
carries the reserved `theia-redirect-` prefix produces no effect at all
(no prompt, no trace) and leaves the pool untouched. -/
theorem c4_reserved_port_silent (resp : UserResponses)
    (workspacePorts redirectPorts : List WorkspacePort) (port : Port) (wp : WorkspacePort)
    (hif : port.interfaceListen = LISTEN_ALL_IPV4 ∨ port.interfaceListen = LISTEN_ALL_IPV6)
    (hfind : workspacePorts.find?
        (fun workspacePort => workspacePort.portNumber == toString port.portNumber) = some wp)
    (hres : jsStartsWith wp.serverName SERVER_REDIRECT_PATTERN = true) :
    onOpenPort resp workspacePorts redirectPorts port = ([], redirectPorts) := by
  have hcond : ¬(port.interfaceListen ≠ LISTEN_ALL_IPV4 ∧
      port.interfaceListen ≠ LISTEN_ALL_IPV6) := by
    rcases hif with h | h <;> simp [h, LISTEN_ALL_IPV4, LISTEN_ALL_IPV6]
  unfold onOpenPort
  rw [if_neg hcond, hfind]
  simp [hres]

/-- Witness for C4: declared reserved port 9000 opened on `0.0.0.0`. -/
theorem c4_reserved_port_silent_witness :
    ((Port.mk 9000 "0.0.0.0").interfaceListen = LISTEN_ALL_IPV4 ∨
      (Port.mk 9000 "0.0.0.0").interfaceListen = LISTEN_ALL_IPV6) ∧
    ([(⟨"9000", "theia-redirect-1", "https://x/9000"⟩ : WorkspacePort)].find?
        (fun workspacePort =>
          workspacePort.portNumber == toString (Port.mk 9000 "0.0.0.0").portNumber) =
      some ⟨"9000", "theia-redirect-1", "https://x/9000"⟩) ∧
    (jsStartsWith (WorkspacePort.mk "9000" "theia-redirect-1" "https://x/9000").serverName
        SERVER_REDIRECT_PATTERN = true) ∧
    onOpenPort ⟨none, none⟩ [⟨"9000", "theia-redirect-1", "https://x/9000"⟩]
        [⟨"9000", "theia-redirect-1", "https://x/9000"⟩] (Port.mk 9000 "0.0.0.0") =
      ([], [⟨"9000", "theia-redirect-1", "https://x/9000"⟩]) :=
  ⟨by decide, by decide, by decide,
    c4_reserved_port_silent ⟨none, none⟩ [⟨"9000", "theia-redirect-1", "https://x/9000"⟩]
      [⟨"9000", "theia-redirect-1", "https://x/9000"⟩] (Port.mk 9000 "0.0.0.0")
      ⟨"9000", "theia-redirect-1", "https://x/9000"⟩ (by decide) (by decide) (by decide)⟩

/-- C5 counterexample: on the declared non-reserved port 3000 the "Open
Link" confirmation is shown with `modal := true`; the non-blocking
(`modal := false`) confirmation the claim describes never occurs. -/
theorem c5_counterexample_prompt_is_modal :
    Effect.showInformationMessage (openLinkMsg ⟨"3000", "webapp", "https://x/3000"⟩)
        false ["Open Link"] ∉
      (onOpenPort ⟨some "Open Link", none⟩ [⟨"3000", "webapp", "https://x/3000"⟩] []
        (Port.mk 3000 "0.0.0.0")).1 ∧
    Effect.showInformationMessage (openLinkMsg ⟨"3000", "webapp", "https://x/3000"⟩)
        true ["Open Link"] ∈
      (onOpenPort ⟨some "Open Link", none⟩ [⟨"3000", "webapp", "https://x/3000"⟩] []
        (Port.mk 3000 "0.0.0.0")).1 := by decide

/-- C5 (amended): a wildcard-bound opened port matching a declared
non-reserved server shows the MODAL "Open Link" confirmation carrying the
entry's external URL, runs `mini-browser.openUrl` on that URL exactly when
the user picks "Open Link", and leaves the pool untouched. -/
theorem c5_declared_port_open_link (resp : UserResponses)
    (workspacePorts redirectPorts : List WorkspacePort) (port : Port) (wp : WorkspacePort)
    (hif : port.interfaceListen = LISTEN_ALL_IPV4 ∨ port.interfaceListen = LISTEN_ALL_IPV6)
    (hfind : workspacePorts.find?
        (fun workspacePort => workspacePort.portNumber == toString port.portNumber) = some wp)
    (hres : jsStartsWith wp.serverName SERVER_REDIRECT_PATTERN = false) :
    onOpenPort resp workspacePorts redirectPorts port =
      (Effect.showInformationMessage (openLinkMsg wp) true ["Open Link"] ::
        ((if resp.first = some "Open Link" then
            [Effect.executeCommand "mini-browser.openUrl" wp.url]
          else []) ++
          [Effect.consoleInfo (nowListeningMsg port)]), redirectPorts) ∧
    (Effect.executeCommand "mini-browser.openUrl" wp.url ∈
        (onOpenPort resp workspacePorts redirectPorts port).1 ↔
      resp.first = some "Open Link") := by
  have hcond : ¬(port.interfaceListen ≠ LISTEN_ALL_IPV4 ∧
      port.interfaceListen ≠ LISTEN_ALL_IPV6) := by
    rcases hif with h | h <;> simp [h, LISTEN_ALL_IPV4, LISTEN_ALL_IPV6]
  have heq : onOpenPort resp workspacePorts redirectPorts port =
      (Effect.showInformationMessage (openLinkMsg wp) true ["Open Link"] ::
        ((if resp.first = some "Open Link" then
            [Effect.executeCommand "mini-browser.openUrl" wp.url]
          else []) ++
          [Effect.consoleInfo (nowListeningMsg port)]), redirectPorts) := by
    unfold onOpenPort
    rw [if_neg hcond, hfind]
    simp [hres]
  refine ⟨heq, ?_⟩
  rw [heq]
  by_cases hc : resp.first = some "Open Link" <;> simp [hc]

/-- Witness for C5 (amended): declared port 3000 opened on `0.0.0.0`,
user picks "Open Link". -/
theorem c5_declared_port_open_link_witness :
    ((Port.mk 3000 "0.0.0.0").interfaceListen = LISTEN_ALL_IPV4 ∨
      (Port.mk 3000 "0.0.0.0").interfaceListen = LISTEN_ALL_IPV6) ∧
    ([(⟨"3000", "webapp", "https://x/3000"⟩ : WorkspacePort)].find?
        (fun workspacePort =>
          workspacePort.portNumber == toString (Port.mk 3000 "0.0.0.0").portNumber) =
      some ⟨"3000", "webapp", "https://x/3000"⟩) ∧
    (jsStartsWith (WorkspacePort.mk "3000" "webapp" "https://x/3000").serverName
        SERVER_REDIRECT_PATTERN = false) ∧
    (onOpenPort ⟨some "Open Link", none⟩ [⟨"3000", "webapp", "https://x/3000"⟩] []
        (Port.mk 3000 "0.0.0.0") =
      (Effect.showInformationMessage (openLinkMsg ⟨"3000", "webapp", "https://x/3000"⟩)
          true ["Open Link"] ::
        ((if (⟨some "Open Link", none⟩ : UserResponses).first = some "Open Link" then
            [Effect.executeCommand "mini-browser.openUrl"
              (WorkspacePort.mk "3000" "webapp" "https://x/3000").url]
          else []) ++
          [Effect.consoleInfo (nowListeningMsg (Port.mk 3000 "0.0.0.0"))]), []) ∧
      (Effect.executeCommand "mini-browser.openUrl"
          (WorkspacePort.mk "3000" "webapp" "https://x/3000").url ∈
          (onOpenPort ⟨some "Open Link", none⟩ [⟨"3000", "webapp", "https://x/3000"⟩] []
            (Port.mk 3000 "0.0.0.0")).1 ↔
        (⟨some "Open Link", none⟩ : UserResponses).first = some "Open Link")) :=
  ⟨by decide, by decide, by decide,
    c5_declared_port_open_link ⟨some "Open Link", none⟩ [⟨"3000", "webapp", "https://x/3000"⟩]
      [] (Port.mk 3000 "0.0.0.0") ⟨"3000", "webapp", "https://x/3000"⟩
      (by decide) (by decide) (by decide)⟩

/-- C6 counterexample: the internal-interface path (port 4000 on
`127.0.0.1`) and the reserved-port path (port 9000, `theia-redirect-1`)
both return before the final `console.info` — no trace is written there,
refuting "every path writes the trace". -/
theorem c6_counterexample_no_trace_on_early_return :
    Effect.consoleInfo (nowListeningMsg (Port.mk 4000 "127.0.0.1")) ∉
      (onOpenPort ⟨none, none⟩ [] [] (Port.mk 4000 "127.0.0.1")).1 ∧
    Effect.consoleInfo (nowListeningMsg (Port.mk 9000 "0.0.0.0")) ∉
      (onOpenPort ⟨none, none⟩ [⟨"9000", "theia-redirect-1", "https://x/9000"⟩] []
        (Port.mk 9000 "0.0.0.0")).1 := by decide

/-- C6 (amended): the `console.info` trace is written exactly on the
wildcard-bound paths that do not return early — a matched non-reserved
server or an unmatched port; the internal-interface path and the
reserved-server path return before it. -/
theorem c6_trace_iff_no_early_return (resp : UserResponses)
    (workspacePorts redirectPorts : List WorkspacePort) (port : Port) :
    (Effect.consoleInfo (nowListeningMsg port) ∈
        (onOpenPort resp workspacePorts redirectPorts port).1) ↔
      ((port.interfaceListen = LISTEN_ALL_IPV4 ∨ port.interfaceListen = LISTEN_ALL_IPV6) ∧
        (match workspacePorts.find?
            (fun workspacePort => workspacePort.portNumber == toString port.portNumber) with
         | some wp => jsStartsWith wp.serverName SERVER_REDIRECT_PATTERN = false
         | none => True)) := by
  unfold onOpenPort
  split
  · rename_i hc
    constructor
    · intro hmem
      exact absurd hmem (consoleInfo_not_mem_askRedirect _ _ _ _ _ _)
    · rintro ⟨hor, -⟩
      rcases hor with h | h
      · exact absurd h hc.1
      · exact absurd h hc.2
  · rename_i hc
    have hor : port.interfaceListen = LISTEN_ALL_IPV4 ∨
        port.interfaceListen = LISTEN_ALL_IPV6 := by
      by_cases h4 : port.interfaceListen = LISTEN_ALL_IPV4
      · exact Or.inl h4
      · by_cases h6 : port.interfaceListen = LISTEN_ALL_IPV6
        · exact Or.inr h6
        · exact absurd ⟨h4, h6⟩ hc
    split
    · rename_i wp hfind
      split
      · rename_i hres
        simp only [List.not_mem_nil, false_iff]
        simp [hor, hres]
      · rename_i hres
        simp only [List.mem_cons, List.mem_append, List.mem_singleton]
        simp [hor, Bool.eq_false_iff.mpr hres]
    · rename_i hfind
      constructor
      · intro _; exact ⟨hor, trivial⟩
      · intro _
        exact List.mem_append_right _ (List.mem_singleton.mpr rfl)

/-- C7: the startup partition `redirectPorts = workspacePorts.filter(...)`
is a pure order-preserving filter: its result is a sublist of the declared
ports, containing exactly the entries whose server name starts with the
reserved prefix. -/
theorem c7_start_pure_filter (workspacePorts : List WorkspacePort) :
    List.Sublist (startRedirectPorts workspacePorts) workspacePorts ∧
    ∀ wp : WorkspacePort,
      wp ∈ startRedirectPorts workspacePorts ↔
        wp ∈ workspacePorts ∧
          jsStartsWith wp.serverName SERVER_REDIRECT_PATTERN = true := by
  constructor
  · exact List.filter_sublist _
  · intro wp
    simp [startRedirectPorts, List.mem_filter]

end ChePorts
namespace CheCredentials

/-- The name `` `${service}_${account}` `` decomposes into the service's
characters, an underscore, and the account's characters. -/
theorem secretName_data (service account : String) :
    (secretName service account).data = (service.data ++ ['_']) ++ account.data := by
  simp [secretName, String.data_append]

/-- C8: `getPassword` ignores its `account` argument and coincides with
`findPassword`; both return the password of the first listed secret whose
name starts with the `service` prefix. -/
theorem c8_getPassword_eq_findPassword (secrets : List K8sSecret)
    (service a1 a2 : String) :
    getPassword secrets service a1 = findPassword secrets service ∧
    getPassword secrets service a1 = getPassword secrets service a2 ∧
    findPassword secrets service =
      (secrets.find? (secretMatches service)).map (fun s => s.password) := by
  refine ⟨rfl, rfl, ?_⟩
  unfold findPassword
  cases secrets.find? (secretMatches service) <;> rfl

/-- C9: `setPassword` fires `onDidChangePassword` with `{service, account}`
after creating the secret; `deletePassword` returns `true` and fires the
event exactly when the remote delete succeeds (the named secret exists),
and returns `false` firing nothing otherwise. -/
theorem c9_events_on_mutation (secrets : List K8sSecret)
    (service account password : String) :
    (setPassword secrets service account password).2 =
      [{ service := service, account := account }] ∧
    ((deletePassword secrets service account).2.1 = true ↔
      (deletePassword secrets service account).2.2 =
        [{ service := service, account := account }]) ∧
    ((deletePassword secrets service account).2.1 = false ↔
      (deletePassword secrets service account).2.2 = []) ∧
    ((deletePassword secrets service account).2.1 = true ↔
      secrets.any (fun s => s.name == some (secretName service account)) = true) := by
  refine ⟨rfl, ?_, ?_, ?_⟩ <;> unfold deletePassword <;> split <;> simp_all

/-- C10: after `setPassword(service, account, password)` stores the secret
`` `${service}_${account}` ``, `findCredentials(service)` contains the
entry `{account, password}`, the account being the secret name with its
first `service.length + 1` characters removed. -/
theorem c10_set_find_roundtrip (secrets : List K8sSecret)
    (service account password : String) :
    jsSubstringFrom (secretName service account) (service.length + 1) = account ∧
    ({ account := account, password := password } : Credential) ∈
      findCredentials (setPassword secrets service account password).1 service := by
  have hsub : jsSubstringFrom (secretName service account) (service.length + 1) = account := by
    unfold jsSubstringFrom
    rw [secretName_data]
    have h2 : service.length + 1 = (service.data ++ ['_']).length := by
      cases service with
      | mk data => simp [String.length_mk, List.length_append]
    rw [h2, List.drop_left]
  refine ⟨hsub, ?_⟩
  have hmatch : secretMatches service
      { name := some (secretName service account), password := password } = true := by
    simp only [secretMatches, ChePorts.jsStartsWith]
    rw [List.isPrefixOf_iff_prefix]
    rw [secretName_data, List.append_assoc]
    exact List.prefix_append _ _
  simp only [findCredentials, setPassword, List.filter_append, List.map_append]
  apply List.mem_append_right
  simp [hmatch, hsub]

end CheCredentials
